import Mathlib

/-!
Shallow embedding of the mun dimensional-analysis library
(src/mun/units.py and src/mun/measurement.py).

Numeric values are modelled as rationals: every conversion function in the
registry is a rational-linear scaling, and all concrete inputs appearing in
the claims are exactly representable.  Python function objects stored in the
to_base and from_base fields of a Unit are modelled by the inductive ConvFn
of the function literals that actually occur in the source, together with
their evaluation function; equality of ConvFn terms mirrors equality of the
corresponding Python function objects.  The process-wide registry dict
(insertion-ordered) is modelled as an association list in the insertion
order of units.py; code reading the global registry takes it as an explicit
argument, and code that could mutate it returns the new registry.
-/

namespace Mun

/-- The UnitOps enum of units.py: the operation joining consecutive
components of a compound unit. -/
inductive UnitOps where
  | Mul
  | Div
deriving DecidableEq

/-- The conversion callables that occur as to_base and from_base values in
units.py: the identity (BaseUnitType), multiplication by a constant
(KiloUnitType, Minute, Hour) and division by a constant (their inverses). -/
inductive ConvFn where
  | idFn
  | mulBy (k : ℚ)
  | divBy (k : ℚ)
deriving DecidableEq

/-- Evaluation of a conversion callable on a value. -/
def ConvFn.eval : ConvFn → ℚ → ℚ
  | .idFn, v => v
  | .mulBy k, v => v * k
  | .divBy k, v => v / k

/-- The Unit dataclass of units.py.  components holds unit symbols
(list[str] in units.py); to_base and from_base are optional callables. -/
structure Unit where
  symbol : String
  kind : String
  to_base : Option ConvFn
  from_base : Option ConvFn
  components : Option (List String) := none
  ops : Option (List UnitOps) := none
deriving DecidableEq

/-- The UnitInfo dataclass of units.py: a unit's name and optional alias
list.  It hashes by name only, so distinct names are distinct dict keys. -/
structure UnitInfo where
  name : String
  aliases : Option (List String) := none
deriving DecidableEq

/-- Meter.id from units.py. -/
def Meter.id : UnitInfo :=
  ⟨"meter", some ["m", "meters", "metre", "metres", "Meter", "Meters", "Metre", "Metres"]⟩

/-- Kilometer.id from units.py.  Note the first alias is the string kg. -/
def Kilometer.id : UnitInfo :=
  ⟨"kilometer", some ["kg", "kilometers", "Kilometer", "Kilometers", "kilometres", "Kilometre", "Kilometres"]⟩

/-- Second.id from units.py. -/
def Second.id : UnitInfo :=
  ⟨"second", some ["s", "sec", "secs", "seconds", "Sec", "Secs", "Second", "Seconds"]⟩

/-- Minute.id from units.py. -/
def Minute.id : UnitInfo :=
  ⟨"minute", some ["min", "mins", "minutes", "Min", "Mins", "Minutes"]⟩

/-- Hour.id from units.py. -/
def Hour.id : UnitInfo :=
  ⟨"hour", some ["h", "hr", "hrs", "hours", "Hour", "Hours"]⟩

/-- Gram.id from units.py. -/
def Gram.id : UnitInfo :=
  ⟨"gram", some ["g", "grams", "Gram", "Grams"]⟩

/-- Kilogram.id from units.py. -/
def Kilogram.id : UnitInfo :=
  ⟨"kilogram", some ["kg", "kilograms", "Kilogram", "Kilograms"]⟩

/-- MeterSquared.id from units.py. -/
def MeterSquared.id : UnitInfo :=
  ⟨"meter squared", some ["m*m", "m^2", "m**2", "meters squared", "metre squared", "metres squared", "Meters Squared", "Metre Squared", "Metres Squared"]⟩

/-- KilometerSquared.id from units.py. -/
def KilometerSquared.id : UnitInfo :=
  ⟨"kilometer squared", some ["km*km", "km^2", "km**2", "kilometers squared", "kilometre squared", "kilometres squared", "Kilometers Squared", "Kilometre Squared", "Kilometres Squared"]⟩

/-- MeterCubed.id from units.py. -/
def MeterCubed.id : UnitInfo :=
  ⟨"meter cubed", some ["m*m*m", "m^3", "m**3", "meters cubed", "metre cubed", "metres cubed", "Meters Cubed", "Metre Cubed", "Metres Cubed"]⟩

/-- MeterPerSecond.id from units.py. -/
def MeterPerSecond.id : UnitInfo :=
  ⟨"meter per second", some ["m/s", "mps", "metre per second", "metres per second", "meters per second", "Meter Per Second", "Metre Per Second", "Metres Per Second", "Meters Per Second"]⟩

/-- MeterPerSecondSquared.id from units.py. -/
def MeterPerSecondSquared.id : UnitInfo :=
  ⟨"meter per second squared", some ["m/s^2", "m/s**2", "m/s/s", "metre per second squared", "metres per second squared", "meters per second squared", "Meter Per Second Squared", "Metre Per Second Squared", "Metres Per Second Squared", "Meters Per Second Squared"]⟩

/-- Newton.id from units.py. -/
def Newton.id : UnitInfo :=
  ⟨"newton", some ["N", "Newton", "newtons", "Newtons", "kg*m/s^2", "kg*m/s/s", "kg*m/s**2"]⟩

/-- Pascal.id from units.py. -/
def Pascal.id : UnitInfo :=
  ⟨"pascal", some ["Pa", "Pascal", "pascals", "Pascals", "N/m^2", "N/m/m", "N/m**2"]⟩

/-- Kelvin.id from units.py. -/
def Kelvin.id : UnitInfo :=
  ⟨"kelvin", some ["K", "Kelvin", "kelvins", "Kelvins"]⟩

/-- KilogramPerMeterCubed.id from units.py. -/
def KilogramPerMeterCubed.id : UnitInfo :=
  ⟨"kilogram per meter cubed", some ["kg/m^3", "kg/m**3", "kg/m/m/m", "kilograms per meter cubed", "Kilogram Per Meter Cubed", "Kilograms Per Meter Cubed"]⟩

/-- MeterSquaredPerSecond.id from units.py. -/
def MeterSquaredPerSecond.id : UnitInfo :=
  ⟨"meter squared per second", some ["m^2/s", "m**2/s", "meters squared per second", "metre squared per second", "metres squared per second", "Meters Squared Per Second", "Metre Squared Per Second", "Metres Squared Per Second"]⟩

/-- The meter descriptor registered in Registry.units. -/
def Registry.meter : Unit := ⟨"m", "length", some .idFn, some .idFn, none, none⟩

/-- The kilometer descriptor registered in Registry.units (KiloUnitType:
to_base multiplies by 1000, from_base divides by 1000). -/
def Registry.kilometer : Unit := ⟨"km", "length", some (.mulBy 1000), some (.divBy 1000), none, none⟩

/-- The second descriptor registered in Registry.units. -/
def Registry.second : Unit := ⟨"s", "time", some .idFn, some .idFn, none, none⟩

/-- The minute descriptor registered in Registry.units (to_base multiplies
by 60, from_base divides by 60). -/
def Registry.minute : Unit := ⟨"min", "time", some (.mulBy 60), some (.divBy 60), none, none⟩

/-- The hour descriptor registered in Registry.units. -/
def Registry.hour : Unit := ⟨"hr", "time", some (.mulBy 3600), some (.divBy 3600), none, none⟩

/-- The gram descriptor registered in Registry.units. -/
def Registry.gram : Unit := ⟨"g", "mass", some .idFn, some .idFn, none, none⟩

/-- The kilogram descriptor registered in Registry.units. -/
def Registry.kilogram : Unit := ⟨"kg", "mass", some (.mulBy 1000), some (.divBy 1000), none, none⟩

/-- The meter squared descriptor registered in Registry.units (the registry
entry in units.py passes only four constructor arguments, so components and
ops are their None defaults). -/
def Registry.meter_squared : Unit := ⟨"m^2", "area", some .idFn, some .idFn, none, none⟩

/-- The kilometer squared descriptor registered in Registry.units. -/
def Registry.kilometer_squared : Unit := ⟨"km^2", "area", some (.mulBy 1000), some (.divBy 1000), none, none⟩

/-- The meter cubed descriptor registered in Registry.units. -/
def Registry.meter_cubed : Unit := ⟨"m^3", "volume", some .idFn, some .idFn, none, none⟩

/-- The meter per second descriptor registered in Registry.units. -/
def Registry.meter_per_second : Unit := ⟨"m/s", "velocity", some .idFn, some .idFn, none, none⟩

/-- The meter per second squared descriptor registered in Registry.units. -/
def Registry.meter_per_second_squared : Unit := ⟨"m/s^2", "acceleration", some .idFn, some .idFn, none, none⟩

/-- The newton descriptor registered in Registry.units. -/
def Registry.newton : Unit := ⟨"N", "force", some .idFn, some .idFn, none, none⟩

/-- The pascal descriptor registered in Registry.units. -/
def Registry.pascal : Unit := ⟨"Pa", "pressure", some .idFn, some .idFn, none, none⟩

/-- The kelvin descriptor registered in Registry.units. -/
def Registry.kelvin : Unit := ⟨"K", "temperature", some .idFn, some .idFn, none, none⟩

/-- The kilogram per meter cubed descriptor registered in Registry.units. -/
def Registry.kilogram_per_meter_cubed : Unit := ⟨"kg/m^3", "density", some .idFn, some .idFn, none, none⟩

/-- The meter squared per second descriptor registered in Registry.units. -/
def Registry.meter_squared_per_second : Unit := ⟨"m^2/s", "viscosity", some .idFn, some .idFn, none, none⟩

/-- Registry.units from units.py: the class-level dict of registered units,
in insertion order (Python dicts iterate in insertion order). -/
def Registry.units : List (UnitInfo × Unit) :=
  [ (Meter.id, Registry.meter)
  , (Kilometer.id, Registry.kilometer)
  , (Second.id, Registry.second)
  , (Minute.id, Registry.minute)
  , (Hour.id, Registry.hour)
  , (Gram.id, Registry.gram)
  , (Kilogram.id, Registry.kilogram)
  , (MeterSquared.id, Registry.meter_squared)
  , (KilometerSquared.id, Registry.kilometer_squared)
  , (MeterCubed.id, Registry.meter_cubed)
  , (MeterPerSecond.id, Registry.meter_per_second)
  , (MeterPerSecondSquared.id, Registry.meter_per_second_squared)
  , (Newton.id, Registry.newton)
  , (Pascal.id, Registry.pascal)
  , (Kelvin.id, Registry.kelvin)
  , (KilogramPerMeterCubed.id, Registry.kilogram_per_meter_cubed)
  , (MeterSquaredPerSecond.id, Registry.meter_squared_per_second)
  ]

/-- The Measurement class of measurement.py: a value and its unit. -/
structure Measurement where
  value : ℚ
  unit : Unit
deriving DecidableEq

/-- The error kinds raised by measurement.py (all are TypeError in Python,
distinguished here by their message/site as the spec names them). -/
inductive MErr where
  | IncompatibleKind
  | NonConvertible
  | UnsupportedComparison
deriving DecidableEq

/-- The runtime dispatch of the binary arithmetic operators: the other
operand is either a Measurement or a plain float. -/
inductive Operand where
  | meas (m : Measurement)
  | num (x : ℚ)

/-- The string-resolution loop in the body of Measurement.init
(measurement.py lines 46-53): scan the registry entries in order; the first
entry whose name equals the string, or whose alias list is present and
contains it, supplies the unit; if the loop finishes with no match, nothing
is returned (the unit attribute stays unassigned). -/
def findFull (s : String) : List (UnitInfo × Unit) → Option Unit
  | [] => none
  | (id, u) :: rest =>
    if id.name = s then some u
    else
      match id.aliases with
      | some al => if s ∈ al then some u else findFull s rest
      | none => findFull s rest

/-- Measurement.init called with a string unit argument: the value is
stored, and the unit attribute is the result of the resolution loop — none
models a Measurement object whose unit attribute was never assigned (the
constructor raises nothing on a failed lookup). -/
def Measurement.initFromStr (v : ℚ) (s : String) : ℚ × Option Unit :=
  (v, findFull s Registry.units)

/-- Measurement.get_unit (the underscore-prefixed helper of
measurement.py lines 103-115): the loop body ends in an else branch that
returns None, so only the first registry entry is ever examined; an empty
registry falls through the loop and implicitly returns None. -/
def get_unit (s : String) : List (UnitInfo × Unit) → Option Unit
  | [] => none
  | (id, u) :: _ =>
    if id.name = s then some u
    else
      match id.aliases with
      | some al => if s ∈ al then some u else none
      | none => none

/-- Measurement.add (measurement.py lines 61-80).  For a Measurement
operand: raises IncompatibleKind (TypeError) when the kinds differ; then
requires self.unit.to_base, other.unit.to_base and self.unit.from_base to
be present (other.unit.from_base is not checked), raising NonConvertible
(TypeError) otherwise; then converts both values to base, adds, and maps
the sum back through self's from_base, keeping self's unit.  For a float
operand: adds it to the value, unit unchanged. -/
def Measurement.add (a : Measurement) : Operand → Except MErr Measurement
  | .meas b =>
    if a.unit.kind = b.unit.kind then
      match a.unit.to_base, b.unit.to_base, a.unit.from_base with
      | some ta, some tb, some fa =>
        .ok ⟨fa.eval (ta.eval a.value + tb.eval b.value), a.unit⟩
      | _, _, _ => .error .NonConvertible
    else .error .IncompatibleKind
  | .num x => .ok ⟨a.value + x, a.unit⟩

/-- Measurement.sub (measurement.py lines 82-101): identical to add with
subtraction in place of addition. -/
def Measurement.sub (a : Measurement) : Operand → Except MErr Measurement
  | .meas b =>
    if a.unit.kind = b.unit.kind then
      match a.unit.to_base, b.unit.to_base, a.unit.from_base with
      | some ta, some tb, some fa =>
        .ok ⟨fa.eval (ta.eval a.value - tb.eval b.value), a.unit⟩
      | _, _, _ => .error .NonConvertible
    else .error .IncompatibleKind
  | .num x => .ok ⟨a.value - x, a.unit⟩

/-- Measurement.mul (measurement.py lines 117-136).  The registry the
global ureg holds is passed in explicitly and returned, modelling the
mutable process-wide dict; the method only reads it (through get_unit) and
never writes it, so the returned registry is the argument.  For a
Measurement operand: the compound symbol and kind are the concatenations
with a star; if get_unit finds no unit a new one is constructed with no
conversion functions, the two symbols as components and a single Mul op;
the result multiplies the values.  For a float operand: scales the value,
unit unchanged. -/
def Measurement.mul (reg : List (UnitInfo × Unit)) (a : Measurement) :
    Operand → List (UnitInfo × Unit) × Measurement
  | .meas b =>
    let symbol := a.unit.symbol ++ "*" ++ b.unit.symbol
    let kind := a.unit.kind ++ "*" ++ b.unit.kind
    let u : Unit :=
      match get_unit symbol reg with
      | some u => u
      | none => ⟨symbol, kind, none, none, some [a.unit.symbol, b.unit.symbol], some [.Mul]⟩
    (reg, ⟨a.value * b.value, u⟩)
  | .num x => (reg, ⟨a.value * x, a.unit⟩)

/-- Measurement.pow (measurement.py lines 159-174): the symbol is the
unit's symbol, a caret and the exponent; get_unit is consulted, and on a
miss a unit is synthesized with empty kind, no conversion functions,
exp repetitions of the unit's symbol as components (range over a
non-positive exponent is empty, hence toNat) and the one-element ops list
holding Div; the value is raised to the exponent. -/
def Measurement.pow (a : Measurement) (exp : ℤ) : Measurement :=
  let symbol := a.unit.symbol ++ "^" ++ toString exp
  let u : Unit :=
    match get_unit symbol Registry.units with
    | some u => u
    | none =>
      ⟨symbol, "", none, none, some (List.replicate exp.toNat a.unit.symbol), some [.Div]⟩
  ⟨a.value ^ exp, u⟩

/-- The runtime dispatch of Measurement.eq: the other operand is a
Measurement, a float, or a value of any other type (a string standing for
the latter, as in the spec's example). -/
inductive EqOperand where
  | meas (m : Measurement)
  | flt (x : ℚ)
  | str (s : String)

/-- Measurement.eq (measurement.py lines 176-182): Measurements compare by
unit and value; a float compares against the value only; anything else
raises UnsupportedComparison (TypeError). -/
def Measurement.eq (a : Measurement) : EqOperand → Except MErr Bool
  | .meas b => .ok (decide (a.unit = b.unit) && decide (a.value = b.value))
  | .flt x => .ok (decide (a.value = x))
  | .str _ => .error .UnsupportedComparison

/-- The observable output of Measurement.str.  The else branch of the
source interpolates self.unit.__ne__ — a bound-method object whose repr
contains a machine-dependent memory address — into the string, so it is
modelled as a distinct constructor carrying the value and unit rather than
as a fixed string. -/
inductive StrOut where
  | render (s : String)
  | neArtifact (value : ℚ) (u : Unit)
deriving DecidableEq

/-- Measurement.str (measurement.py lines 55-59): when the unit's symbol is
truthy (non-empty) render the value, a space and the symbol; otherwise
interpolate the unit's bound ne method object. -/
def Measurement.toStr (m : Measurement) : StrOut :=
  if m.unit.symbol ≠ "" then .render (toString m.value ++ " " ++ m.unit.symbol)
  else .neArtifact m.value m.unit

/-- A custom unit whose from_base callable is absent: an ephemeral
descriptor a caller may construct directly, used to probe the additive
guard. -/
def noFromBaseUnit : Unit := ⟨"nfb", "length", some .idFn, none, none, none⟩

/-- A custom unit with neither conversion callable, as the synthesized
compound units of mul have. -/
def noToBaseUnit : Unit := ⟨"ntb", "length", none, none, none, none⟩

/-- A custom unit whose symbol is the empty string, exercising the else
branch of Measurement.str. -/
def emptySymbolUnit : Unit := ⟨"", "length", some .idFn, some .idFn, none, none⟩

/-- C1: for Measurements whose units share a kind and whose conversion
functions are all defined, addition and subtraction convert both values to
base through the respective to_base functions, combine them, map the result
back through the left operand from_base, and keep the left operand unit; in
particular one minute plus sixty seconds is two minutes. -/
theorem C1_additive_conversion :
  (∀ (a b : Measurement) (ta tb fa fb : ConvFn),
      a.unit.kind = b.unit.kind →
      a.unit.to_base = some ta →
      b.unit.to_base = some tb →
      a.unit.from_base = some fa →
      b.unit.from_base = some fb →
      a.add (.meas b) = .ok ⟨fa.eval (ta.eval a.value + tb.eval b.value), a.unit⟩ ∧
      a.sub (.meas b) = .ok ⟨fa.eval (ta.eval a.value - tb.eval b.value), a.unit⟩) ∧
  Measurement.add ⟨1, Registry.minute⟩ (.meas ⟨60, Registry.second⟩) =
    .ok ⟨2, Registry.minute⟩ := by
  constructor
  · intro a b ta tb fa fb hk hta htb hfa _
    constructor <;> simp [Measurement.add, Measurement.sub, hk, hta, htb, hfa]
  · simp [Measurement.add, Registry.minute, Registry.second, ConvFn.eval]
    norm_num

/-- C1 witness: the conversion formula instantiated at one minute plus
sixty seconds. -/
theorem C1_additive_conversion_witness :
  Registry.minute.kind = Registry.second.kind ∧
  Measurement.add ⟨1, Registry.minute⟩ (.meas ⟨60, Registry.second⟩) =
    .ok ⟨(ConvFn.divBy 60).eval ((ConvFn.mulBy 60).eval 1 + ConvFn.idFn.eval 60), Registry.minute⟩ :=
  ⟨rfl, (C1_additive_conversion.1 ⟨1, Registry.minute⟩ ⟨60, Registry.second⟩
    (.mulBy 60) .idFn (.divBy 60) .idFn rfl rfl rfl rfl rfl).1⟩

/-- C2 counterexample: multiplying one gram by one gram leaves the registry
exactly as it was — afterwards no entry resolves the compound symbol g*g,
and the unit carried by the product is the freshly synthesized descriptor,
not a registered one.  This refutes the frozen claim that the synthesized
unit is registered under its symbol before the product is returned. -/
theorem C2_counterexample :
  (Measurement.mul Registry.units ⟨1, Registry.gram⟩ (.meas ⟨1, Registry.gram⟩)).1 = Registry.units ∧
  findFull "g*g" (Measurement.mul Registry.units ⟨1, Registry.gram⟩ (.meas ⟨1, Registry.gram⟩)).1 = none ∧
  (Measurement.mul Registry.units ⟨1, Registry.gram⟩ (.meas ⟨1, Registry.gram⟩)).2.unit =
    ⟨"g*g", "mass*mass", none, none, some ["g", "g"], some [.Mul]⟩ :=
  ⟨rfl, by decide, by rfl⟩

/-- C2 amended: multiplication of two Measurements returns the product of
the values under the star-joined symbol; when the lookup misses, the
synthesized unit has no conversion functions, the two operand symbols as
components and a single Mul op, and it is NOT registered — the registry is
returned unchanged, so a second identical multiplication synthesizes a
fresh structurally equal descriptor instead of resolving a shared registry
entry. -/
theorem C2_mul_synthesis :
  ∀ (reg : List (UnitInfo × Unit)) (a b : Measurement),
    (Measurement.mul reg a (.meas b)).1 = reg ∧
    (Measurement.mul reg a (.meas b)).2.value = a.value * b.value ∧
    (get_unit (a.unit.symbol ++ "*" ++ b.unit.symbol) reg = none →
      (Measurement.mul reg a (.meas b)).2.unit =
        ⟨a.unit.symbol ++ "*" ++ b.unit.symbol, a.unit.kind ++ "*" ++ b.unit.kind,
          none, none, some [a.unit.symbol, b.unit.symbol], some [.Mul]⟩) := by
  intro reg a b
  refine ⟨rfl, rfl, fun h => ?_⟩
  simp [Measurement.mul, h]

/-- C2 witness: the synthesis clause instantiated at gram times gram. -/
theorem C2_mul_synthesis_witness :
  get_unit ("g" ++ "*" ++ "g") Registry.units = none ∧
  (Measurement.mul Registry.units ⟨1, Registry.gram⟩ (.meas ⟨1, Registry.gram⟩)).2.unit =
    ⟨"g" ++ "*" ++ "g", "mass" ++ "*" ++ "mass", none, none, some ["g", "g"], some [.Mul]⟩ :=
  ⟨by decide, (C2_mul_synthesis Registry.units ⟨1, Registry.gram⟩ ⟨1, Registry.gram⟩).2.2 (by decide)⟩

/-- C3: the string notaunit matches no registered name and no alias, and
the constructor then completes silently with the unit attribute unassigned
(modelled by the none in the second component) instead of raising
UnitNotFoundError as the claim requires. -/
theorem C3_silent_fallthrough :
  (Registry.units.all fun p =>
      decide (p.1.name ≠ "notaunit") &&
        match p.1.aliases with
        | some al => decide ("notaunit" ∉ al)
        | none => true) = true ∧
  Measurement.initFromStr 1 "notaunit" = (1, none) :=
  ⟨by decide, by decide⟩

/-- C4: the alias s names the registered second entry (the full-scan
resolution of the constructor finds it), yet get_unit returns None for it,
because the loop body returns None as soon as the first registry entry
fails to match; this refutes returns-None-only-after-all-entries. -/
theorem C4_get_unit_early_abort :
  findFull "s" Registry.units = some Registry.second ∧
  get_unit "s" Registry.units = none :=
  ⟨by decide, by decide⟩

/-- C5 counterexample: the right operand unit lacks from_base, yet addition
and subtraction succeed, because the guard never inspects the right operand
from_base.  This refutes the frozen claim that the additive operations fail
whenever at least one of the four conversion functions is missing. -/
theorem C5_counterexample :
  noFromBaseUnit.from_base = none ∧
  Registry.meter.kind = noFromBaseUnit.kind ∧
  Measurement.add ⟨1, Registry.meter⟩ (.meas ⟨1, noFromBaseUnit⟩) = .ok ⟨2, Registry.meter⟩ ∧
  Measurement.sub ⟨3, Registry.meter⟩ (.meas ⟨1, noFromBaseUnit⟩) = .ok ⟨2, Registry.meter⟩ := by
  refine ⟨rfl, rfl, ?_, ?_⟩ <;>
  · simp [Measurement.add, Measurement.sub, Registry.meter, noFromBaseUnit, ConvFn.eval]
    norm_num

/-- C5 amended: for same-kind operands the additive operations raise
NonConvertible exactly when the checked triple — left to_base, right
to_base, left from_base — is not fully present; the right operand from_base
is neither checked nor used, and when the triple is present the operation
succeeds. -/
theorem C5_nonconvertible_guard :
  ∀ a b : Measurement, a.unit.kind = b.unit.kind →
    ((a.unit.to_base.isSome ∧ b.unit.to_base.isSome ∧ a.unit.from_base.isSome) →
        (∃ m, a.add (.meas b) = .ok m) ∧ ∃ m, a.sub (.meas b) = .ok m) ∧
    (¬(a.unit.to_base.isSome ∧ b.unit.to_base.isSome ∧ a.unit.from_base.isSome) →
        a.add (.meas b) = .error .NonConvertible ∧
        a.sub (.meas b) = .error .NonConvertible) := by
  intro a b hk
  constructor
  · rintro ⟨h1, h2, h3⟩
    obtain ⟨ta, hta⟩ := Option.isSome_iff_exists.mp h1
    obtain ⟨tb, htb⟩ := Option.isSome_iff_exists.mp h2
    obtain ⟨fa, hfa⟩ := Option.isSome_iff_exists.mp h3
    exact ⟨⟨⟨fa.eval (ta.eval a.value + tb.eval b.value), a.unit⟩,
             by simp [Measurement.add, hk, hta, htb, hfa]⟩,
           ⟨⟨fa.eval (ta.eval a.value - tb.eval b.value), a.unit⟩,
             by simp [Measurement.sub, hk, hta, htb, hfa]⟩⟩
  · intro h
    rcases hta : a.unit.to_base with _ | ta <;>
    rcases htb : b.unit.to_base with _ | tb <;>
    rcases hfa : a.unit.from_base with _ | fa <;>
    simp_all [Measurement.add, Measurement.sub, hk]

/-- C5 witness: the failure clause instantiated with a right operand whose
to_base is absent. -/
theorem C5_nonconvertible_guard_witness :
  Registry.meter.kind = noToBaseUnit.kind ∧
  Measurement.add ⟨1, Registry.meter⟩ (.meas ⟨1, noToBaseUnit⟩) = .error .NonConvertible ∧
  Measurement.sub ⟨1, Registry.meter⟩ (.meas ⟨1, noToBaseUnit⟩) = .error .NonConvertible :=
  ⟨rfl,
   ((C5_nonconvertible_guard ⟨1, Registry.meter⟩ ⟨1, noToBaseUnit⟩ rfl).2 (by decide)).1,
   ((C5_nonconvertible_guard ⟨1, Registry.meter⟩ ⟨1, noToBaseUnit⟩ rfl).2 (by decide)).2⟩

/-- C6: additive operations on units of different kinds raise
IncompatibleKind and construct nothing (the error is the whole result; the
operation never touches the registry); in particular one meter plus one
second fails so. -/
theorem C6_kind_mismatch :
  (∀ a b : Measurement, a.unit.kind ≠ b.unit.kind →
      a.add (.meas b) = .error .IncompatibleKind ∧
      a.sub (.meas b) = .error .IncompatibleKind) ∧
  Measurement.add ⟨1, Registry.meter⟩ (.meas ⟨1, Registry.second⟩) = .error .IncompatibleKind := by
  constructor
  · intro a b hk
    constructor <;> simp [Measurement.add, Measurement.sub, hk]
  · simp [Measurement.add, Registry.meter, Registry.second]

/-- C6 witness: the kind-mismatch clause instantiated at meter and
second. -/
theorem C6_kind_mismatch_witness :
  Registry.meter.kind ≠ Registry.second.kind ∧
  Measurement.sub ⟨1, Registry.meter⟩ (.meas ⟨1, Registry.second⟩) = .error .IncompatibleKind :=
  ⟨by decide, (C6_kind_mismatch.1 ⟨1, Registry.meter⟩ ⟨1, Registry.second⟩ (by decide)).2⟩

/-- C7: raising two meters to the third power yields value eight and the
caret symbol, with three component symbols but an ops list holding a single
Div — not the two (exp minus one) Div entries the claim requires — so the
synthesized unit violates the documented invariant that the ops list is one
shorter than the components list. -/
theorem C7_pow_single_div :
  (Measurement.pow ⟨2, Registry.meter⟩ 3).value = 8 ∧
  (Measurement.pow ⟨2, Registry.meter⟩ 3).unit.symbol = "m^3" ∧
  (Measurement.pow ⟨2, Registry.meter⟩ 3).unit.components = some ["m", "m", "m"] ∧
  (Measurement.pow ⟨2, Registry.meter⟩ 3).unit.ops = some [UnitOps.Div] ∧
  (some [UnitOps.Div] : Option (List UnitOps)) ≠ some (List.replicate (3 - 1) UnitOps.Div) := by
  refine ⟨?_, rfl, rfl, rfl, by decide⟩
  show (2 : ℚ) ^ (3 : ℤ) = 8
  norm_num

/-- C8: with a non-empty symbol the rendering is the value, a space and the
symbol; with an empty symbol the code interpolates the bound ne method of
the unit — an introspection artifact — and no rendered string of the
claimed value-and-name shape is produced. -/
theorem C8_render :
  (∀ m : Measurement, m.unit.symbol ≠ "" →
      m.toStr = .render (toString m.value ++ " " ++ m.unit.symbol)) ∧
  Measurement.toStr ⟨1, emptySymbolUnit⟩ = .neArtifact 1 emptySymbolUnit ∧
  ∀ s, Measurement.toStr ⟨1, emptySymbolUnit⟩ ≠ .render s := by
  refine ⟨fun m h => by simp [Measurement.toStr, h], rfl, fun s h => ?_⟩
  rw [show Measurement.toStr ⟨1, emptySymbolUnit⟩ = .neArtifact 1 emptySymbolUnit from rfl] at h
  exact StrOut.noConfusion h

/-- C8 witness: the symbol branch instantiated at one meter. -/
theorem C8_render_witness :
  Registry.meter.symbol ≠ "" ∧
  Measurement.toStr ⟨1, Registry.meter⟩ = .render (toString (1 : ℚ) ++ " " ++ Registry.meter.symbol) :=
  ⟨by decide, C8_render.1 ⟨1, Registry.meter⟩ (by decide)⟩

/-- C9: equality of two Measurements holds exactly when both the unit
descriptors and the values are equal; equality against a float compares the
value only; equality against a value of any other type, a string for
instance, raises UnsupportedComparison instead of returning a boolean. -/
theorem C9_eq_dispatch :
  (∀ a b : Measurement, a.eq (.meas b) = .ok true ↔ a.unit = b.unit ∧ a.value = b.value) ∧
  (∀ (a : Measurement) (x : ℚ), a.eq (.flt x) = .ok true ↔ a.value = x) ∧
  (∀ (a : Measurement) (s : String), a.eq (.str s) = .error .UnsupportedComparison) := by
  refine ⟨fun a b => ?_, fun a x => ?_, fun a s => rfl⟩ <;> simp [Measurement.eq]

/-- C10: the string kg resolves, for every value, to the kilometer
descriptor — Kilometer lists kg as its first alias and precedes Kilogram in
the registry iteration order — a length unit whose to_base multiplies by
one thousand, and that descriptor differs from the mass-kind kilogram
descriptor. -/
theorem C10_kg_is_kilometer :
  (∀ v : ℚ, Measurement.initFromStr v "kg" = (v, some Registry.kilometer)) ∧
  Registry.kilometer.kind = "length" ∧
  Registry.kilometer.to_base = some (ConvFn.mulBy 1000) ∧
  (∀ x : ℚ, (ConvFn.mulBy 1000).eval x = x * 1000) ∧
  Registry.kilometer ≠ Registry.kilogram ∧
  Registry.kilogram.kind = "mass" := by
  refine ⟨fun v => ?_, rfl, rfl, fun x => rfl, by decide, rfl⟩
  unfold Measurement.initFromStr
  rw [show findFull "kg" Registry.units = some Registry.kilometer from by decide]

end Mun

